import Mathlib

/-!
Verification development for the SQL query-proxy repository
(`app.py`, `api_service.py`, `app_api.py`).

The shallow embedding below translates the query-execution-and-resilience
pipeline into Lean:

* `run_query` / `runQueryRetry` embed the retry loop of the
  function `run_query` in `app.py` (lines 172-229): classification of driver failures by Python
  exception class and message signature, exponential backoff for timeouts,
  fixed one-second delay for other operational errors, immediate return for
  programming errors and all other exceptions.
* `runQueryCached` embeds the `@st.cache_data(ttl=600)` decorator wrapped
  around `run_query`: a TTL-keyed memo of the returned value.
* `execute_query`, `get_current_user`, `get_current_active_user`,
  `create_access_token`, `run_sql_query` embed the FastAPI proxy
  (`api_service.py`).
* `serializeQueryResult` / `parseWire` embed the JSON wire format of
  `POST /api/query` and the client-side parse in `app_api.py`.

External driver/library behavior (pyodbc outcomes, jose JWT decoding,
streamlit memoization) is represented by explicit outcome data fed to the
embedded functions, so that every control-flow decision made by the
code of the repository itself is carried out by the Lean definitions.
-/

deriving instance DecidableEq for Except

/-- A normalized cell value as it appears in query results: the executor in
`api_service.py` converts `datetime`/`bytes` cells to strings, so cells that
leave the pipeline are strings, numbers, booleans or null. -/
inductive Cell where
  | str (s : String)
  | num (q : ℚ)
  | bool (b : Bool)
  | null
deriving DecidableEq, Repr

/-- A pandas DataFrame as observed at the shell interface of `app.py`:
column names plus row-major data.  `pd.DataFrame()` is `DataFrame.empty`. -/
structure DataFrame where
  columns : List String
  rows : List (List Cell)
deriving DecidableEq, Repr

/-- The value of the bare `pd.DataFrame()` constructor: no columns, no rows. -/
def DataFrame.empty : DataFrame := ⟨[], []⟩

/-- Exceptions the pyodbc driver can raise into the `try` block of
`run_query`,
split exactly along the `except` clauses of `app.py` lines 200-229:
`pyodbc.OperationalError`, `pyodbc.ProgrammingError`, and any other
`Exception` (for instance `pyodbc.InterfaceError`, which is what pyodbc
raises on SQLSTATE 28000 database-login failures). -/
inductive PyExc where
  | opError (msg : String)
  | progError (msg : String)
  | otherError (msg : String)
deriving DecidableEq, Repr

/-- Outcome of one execution attempt inside the `while` loop of
`run_query` in `app.py`: the pooled connection may be `None` (line 193), `pd.read_sql`
may succeed with a DataFrame, or an exception is raised. -/
inductive AttemptOutcome where
  | noConn
  | success (df : DataFrame)
  | raiseExc (e : PyExc)
deriving DecidableEq, Repr

/-- The content of an `st.warning` emitted on a retried attempt
(`app.py` lines 208 and 216): which branch fired, the retry counter, the
cap, and (for timeouts) the wait that was announced. -/
inductive RetryWarning where
  | timeoutRetry (retryCount maxRetries : Nat) (wait : ℚ)
  | connRetry (retryCount maxRetries : Nat)
deriving DecidableEq, Repr

/-- Everything observable about one call of `run_query` in `app.py`:
the returned value (`none` models the implicit Python `None` when the `while`
guard fails, which is unreachable for `max_retries = 5`), the number of
execution attempts made, the `time.sleep` durations performed in order, the
`st.warning` messages, and the `st.error` messages. -/
structure RunOutcome where
  ret : Option DataFrame
  attempts : Nat
  sleeps : List ℚ
  warnings : List RetryWarning
  errors : List String
deriving DecidableEq, Repr

/-- Boolean substring test on character lists (the Python `in` on `str`). -/
def charsContains (pat : List Char) : List Char → Bool
  | [] => pat.isEmpty
  | c :: cs => pat.isPrefixOf (c :: cs) || charsContains pat cs

/-- Embedding of the Python `pat in s` test for strings. -/
def strContainsSub (s pat : String) : Bool := charsContains pat.toList s.toList

/-- Embedding of the Python `str.lower`. -/
def pyLower (s : String) : String := ⟨s.data.map Char.toLower⟩

/-- The timeout signature test of `app.py` line 205:
`"HYT00" in error_msg or "timeout" in error_msg.lower()`. -/
def isTimeoutSig (msg : String) : Bool :=
  strContainsSub msg "HYT00" || strContainsSub (pyLower msg) "timeout"

/-- The `st.error` message of `app.py` line 211 (timeout retries exhausted). -/
def timeoutExhaustMsg (maxRetries : Nat) : String :=
  "Query timed out after " ++ toString maxRetries ++
    " attempts. Try simplifying your query."

/-- The `st.error` message of `app.py` line 219 (other operational retries
exhausted). -/
def connExhaustMsg (maxRetries : Nat) (msg : String) : String :=
  "Failed to execute query after " ++ toString maxRetries ++ " attempts: " ++ msg

/-- The `while retry_count < max_retries` loop of `run_query` in `app.py`
(lines 190-229).  `driver n` is the outcome of the n-th execution attempt
(attempts numbered from 1).  The first `Nat` argument is fuel bounding the
number of loop iterations; the loop increments `retryCount` on every
continuing iteration, so `maxRetries + 1` fuel is always sufficient.
On fuel exhaustion (unreachable from `runQueryRetry`) and on a false loop
guard the function returns `ret = none`, matching the implicit Python `None`
when the `while` loop falls through. -/
def runQueryLoop (driver : Nat → AttemptOutcome) (maxRetries : Nat) :
    Nat → Nat → Nat → List ℚ → List RetryWarning → List String → RunOutcome
  | 0, _, attempts, sleeps, warns, errs => ⟨none, attempts, sleeps, warns, errs⟩
  | fuel + 1, retryCount, attempts, sleeps, warns, errs =>
    if retryCount < maxRetries then
      match driver (attempts + 1) with
      | .noConn =>
          ⟨some DataFrame.empty, attempts + 1, sleeps, warns,
            errs ++ ["Unable to establish database connection"]⟩
      | .success df => ⟨some df, attempts + 1, sleeps, warns, errs⟩
      | .raiseExc (.opError msg) =>
          let rc := retryCount + 1
          if isTimeoutSig msg then
            if rc < maxRetries then
              runQueryLoop driver maxRetries fuel rc (attempts + 1)
                (sleeps ++ [(3 / 2 : ℚ) ^ rc])
                (warns ++ [.timeoutRetry rc maxRetries ((3 / 2 : ℚ) ^ rc)]) errs
            else
              ⟨some DataFrame.empty, attempts + 1, sleeps, warns,
                errs ++ [timeoutExhaustMsg maxRetries]⟩
          else
            if rc < maxRetries then
              runQueryLoop driver maxRetries fuel rc (attempts + 1)
                (sleeps ++ [(1 : ℚ)]) (warns ++ [.connRetry rc maxRetries]) errs
            else
              ⟨some DataFrame.empty, attempts + 1, sleeps, warns,
                errs ++ [connExhaustMsg maxRetries msg]⟩
      | .raiseExc (.progError msg) =>
          ⟨some DataFrame.empty, attempts + 1, sleeps, warns,
            errs ++ ["SQL Error: " ++ msg]⟩
      | .raiseExc (.otherError msg) =>
          ⟨some DataFrame.empty, attempts + 1, sleeps, warns,
            errs ++ ["Query Error: " ++ msg]⟩
    else ⟨none, attempts, sleeps, warns, errs⟩

/-- Embedding of `run_query` from `app.py` with the retry cap as an explicit parameter
(the source hardcodes `max_retries = 5`; `backoff_factor = 1.5` is baked in
as `3 / 2`). -/
def runQueryRetry (maxRetries : Nat) (driver : Nat → AttemptOutcome) : RunOutcome :=
  runQueryLoop driver maxRetries (maxRetries + 1) 0 0 [] [] []

/-- Embedding of `run_query` from `app.py` exactly as in the source: `max_retries = 5`,
`backoff_factor = 1.5`. -/
def run_query (driver : Nat → AttemptOutcome) : RunOutcome :=
  runQueryRetry 5 driver

/-! Cache layer: the `@st.cache_data(ttl=600)` decorator around `run_query`.

Both `app.py` line 172 and `app_api.py` line 126 decorate `run_query` with
`@st.cache_data(ttl=600)`.  The decorator memoizes the return value of the wrapped
function keyed by its argument; an entry is served while its age is
below the TTL, otherwise the body runs again and the fresh return value
replaces the entry.  The decorator caches whatever the body returns — it
has no notion of success or failure. -/

/-- The memo store of `st.cache_data`: cache key (the query string), the
cached return value of `run_query`, and the insertion time in seconds.
Newer entries are consed at the front and shadow older ones. -/
abbrev QueryCache := List (String × Option DataFrame × Nat)

/-- Cache lookup: the first entry for the key is served while
`now - insertedAt < ttl`; a stale or absent key is a miss. -/
def cacheLookup (c : QueryCache) (key : String) (now ttl : Nat) :
    Option (Option DataFrame) :=
  match c.find? (fun e => e.1 == key) with
  | some (_, v, tIns) => if now - tIns < ttl then some v else none
  | none => none

/-- One call of the `st.cache_data`-wrapped `run_query`: the value handed
to the caller, the cache afterwards, and whether the wrapped body (and
hence the database pipeline) actually ran. -/
structure CachedCall where
  ret : Option DataFrame
  cache : QueryCache
  executed : Bool
deriving DecidableEq, Repr

/-- The function `run_query` as the shell actually calls it: behind
`@st.cache_data(ttl=600)`.  On a fresh entry the cached value is served and
the body is skipped; otherwise the body runs (with `driver` supplying the
attempt outcomes) and its return value — whatever it is — is stored. -/
def runQueryCached (driver : Nat → AttemptOutcome) (query : String)
    (now : Nat) (c : QueryCache) : CachedCall :=
  match cacheLookup c query now 600 with
  | some v => ⟨v, c, false⟩
  | none =>
      let r := (run_query driver).ret
      ⟨r, (query, r, now) :: c, true⟩

/-! Embedding of the FastAPI proxy (`api_service.py`). -/

/-- A raw cursor cell as pyodbc hands it to `execute_query`: the executor
(`api_service.py` line 137) converts `datetime` and `bytes` cells to their
`str()` rendering and passes everything else through. -/
inductive RawCell where
  | str (s : String)
  | num (q : ℚ)
  | bool (b : Bool)
  | null
  | datetime (rendering : String)
  | bytes (rendering : String)
deriving DecidableEq, Repr

/-- The cell normalization of `api_service.py` lines 134-141:
`str(cell) if isinstance(cell, (datetime, bytes)) else cell`. -/
def RawCell.normalize : RawCell → Cell
  | .str s => .str s
  | .num q => .num q
  | .bool b => .bool b
  | .null => .null
  | .datetime s => .str s
  | .bytes s => .str s

/-- Outcome of the pyodbc cursor work inside the `try` block of
`execute_query`:
a result set (`cursor.description` non-null) with column names and rows, a
row count only (non-SELECT statements), or a raised exception with its
`str()` message.  Connection failures are exceptions here too — the
`pyodbc.connect` call sits inside the same `try`. -/
inductive CursorOutcome where
  | resultSet (columns : List String) (rows : List (List RawCell))
  | rowcount (n : Int)
  | raiseExc (msg : String)
deriving DecidableEq, Repr

/-- The dict `execute_query` returns on success
(`api_service.py` lines 102-108 and the `QueryResult` pydantic model). -/
structure ExecResultW where
  columns : List String
  data : List (List Cell)
  rows_affected : Int
  execution_time : ℚ
  timestamp : Nat
deriving DecidableEq, Repr

/-- An `HTTPException` as raised by `api_service.py`: status code plus
detail message. -/
structure ApiError where
  statusCode : Nat
  detail : String
deriving DecidableEq, Repr

/-- Embedding of `execute_query`, `api_service.py` lines 97-158.  On a result set it
captures the columns, the normalized rows and `rows_affected = len(rows)`;
with no result set it captures `cursor.rowcount`; on any exception it
raises `HTTPException(500, "Database error: " + str(e))`.  `elapsed` is the
measured wall-clock duration, `now` the `datetime.now()` timestamp. -/
def execute_query (outcome : CursorOutcome) (elapsed : ℚ) (now : Nat) :
    Except ApiError ExecResultW :=
  match outcome with
  | .resultSet cols rows =>
      .ok ⟨cols, rows.map (fun row => row.map RawCell.normalize),
        (rows.length : Int), elapsed, now⟩
  | .rowcount n => .ok ⟨[], [], n, elapsed, now⟩
  | .raiseExc msg => .error ⟨500, "Database error: " ++ msg⟩

/-- The kinds of the `ClassifiedError` of the spec
(spec section 4.2 / section 7). -/
inductive ErrKind where
  | timeout
  | connection
  | malformedSql
  | auth
  | unknown
deriving DecidableEq, Repr

/-- Modelled from the words of the spec (section 4.2), NOT from the source —
the source performs no such classification.  "driver-level timeout or
network failure → Connection or Timeout depending on message signature;
malformed SQL/object-not-found → Syntax; authentication failure at the
database layer → Auth; anything else → Unknown", by matching known
error-code substrings.  Used only to compare the intended spec
classification against what `execute_query` actually produces. -/
def specClassifyFailure (msg : String) : ErrKind :=
  if isTimeoutSig msg then .timeout
  else if strContainsSub msg "08001" || strContainsSub (pyLower msg) "network" then
    .connection
  else if strContainsSub msg "42S02" || strContainsSub (pyLower msg) "syntax" ||
      strContainsSub (pyLower msg) "invalid object name" then .malformedSql
  else if strContainsSub msg "28000" || strContainsSub (pyLower msg) "login failed" then
    .auth
  else .unknown

/-! Embedding of the JWT authentication (`api_service.py` lines 160-213). -/

/-- The payload of a JWT as used by the service: the `"sub"` claim (absent
when the encoded dict had none) and the `"exp"` claim in epoch seconds. -/
structure JwtPayload where
  sub : Option String
  exp : Nat
deriving DecidableEq, Repr

/-- A bearer token as `jose.jwt` sees it: either structurally/signature
invalid, or correctly signed with some key and carrying a payload. -/
inductive JwtToken where
  | malformed (raw : String)
  | signed (key : String) (payload : JwtPayload)
deriving DecidableEq, Repr

/-- The two failure classes `jose.jwt.decode` can raise, both subclasses of
`JWTError`: `ExpiredSignatureError` for an elapsed `exp` claim, and plain
`JWTError` for a bad signature or structure. -/
inductive JoseError where
  | expired
  | invalid
deriving DecidableEq, Repr

/-- Embedding of `jose.jwt.decode(token, key, algorithms=...)` as called at
`api_service.py` line 198: signature/structure validation, then automatic
expiry check (`exp < now` raises `ExpiredSignatureError`). -/
def jwtDecode (serverKey : String) (now : Nat) (t : JwtToken) :
    Except JoseError JwtPayload :=
  match t with
  | .malformed _ => .error .invalid
  | .signed k p =>
      if k = serverKey then
        if p.exp < now then .error .expired else .ok p
      else .error .invalid

/-- Embedding of `create_access_token`, `api_service.py` lines 181-189: the payload
dict (here reduced to its `"sub"` entry) is extended with
`exp = now + expires_delta`, defaulting to 15 minutes, and signed. -/
def create_access_token (key : String) (dataSub : Option String) (now : Nat)
    (expiresDelta : Option Nat) : JwtToken :=
  .signed key ⟨dataSub, now + expiresDelta.getD (15 * 60)⟩

/-- The single `credentials_exception` of `api_service.py` lines 192-196,
raised on every token-validation failure. -/
def credentials_exception : ApiError := ⟨401, "Could not validate credentials"⟩

/-- A `User` record (`api_service.py` lines 60-62). -/
structure UserM where
  username : String
  disabled : Bool
deriving DecidableEq, Repr

/-- The hardcoded username of the demo principal (`DEMO_USER`,
`api_service.py` lines 41-46; `disabled` is `False`). -/
def DEMO_USER_NAME : String := "admin"

/-- Embedding of `get_user`, `api_service.py` lines 167-171: only the demo user
exists. -/
def get_user (username : String) : Option UserM :=
  if username = DEMO_USER_NAME then some ⟨DEMO_USER_NAME, false⟩ else none

/-- Embedding of `get_current_user`, `api_service.py` lines 191-208: decode the token
(any `JWTError` → the one `credentials_exception`), require a `"sub"`
claim, and require that subject to resolve to a known user. -/
def get_current_user (key : String) (now : Nat) (t : JwtToken) :
    Except ApiError UserM :=
  match jwtDecode key now t with
  | .error _ => .error credentials_exception
  | .ok p =>
      match p.sub with
      | none => .error credentials_exception
      | some u =>
          match get_user u with
          | none => .error credentials_exception
          | some user => .ok user

/-- Embedding of `get_current_active_user`, `api_service.py` lines 210-213. -/
def get_current_active_user (key : String) (now : Nat) (t : JwtToken) :
    Except ApiError UserM :=
  match get_current_user key now t with
  | .error e => .error e
  | .ok u => if u.disabled then .error ⟨400, "Inactive user"⟩ else .ok u

/-- The `POST /api/query` endpoint `run_sql_query`
(`api_service.py` lines 279-297) together with its FastAPI dependency
chain: token validation runs first (`Depends(get_current_active_user)`);
only when it succeeds does the handler body call `execute_query`.
The boolean records whether `execute_query` was reached. -/
def run_sql_query (key : String) (now : Nat) (t : JwtToken)
    (outcome : CursorOutcome) (elapsed : ℚ) :
    Except ApiError ExecResultW × Bool :=
  match get_current_active_user key now t with
  | .error e => (.error e, false)
  | .ok _ => (execute_query outcome elapsed now, true)

/-! Wire format: the JSON body of `POST /api/query`.

The server serializes the `QueryResult` pydantic model (`api_service.py`
lines 71-76) to a JSON object with fields `columns`, `data`,
`rows_affected`, `execution_time`, `timestamp`; the client
(`app_api.py` lines 97-98, 142-155) parses the body with
`response.json()` and reads those fields back. -/

/-- A JSON value. -/
inductive Json where
  | str (s : String)
  | num (q : ℚ)
  | bool (b : Bool)
  | null
  | arr (elems : List Json)
  | obj (fields : List (String × Json))

/-- Serialization of a normalized cell to JSON. -/
def cellToJson : Cell → Json
  | .str s => .str s
  | .num q => .num q
  | .bool b => .bool b
  | .null => .null

/-- Client-side reading of a JSON value back as a cell. -/
def cellOfJson : Json → Option Cell
  | .str s => some (.str s)
  | .num q => some (.num q)
  | .bool b => some (.bool b)
  | .null => some .null
  | .arr _ => none
  | .obj _ => none

/-- The JSON body of a successful `POST /api/query` response: the
`QueryResult` model rendered field by field (rows row-major, as
`data`). -/
def serializeQueryResult (r : ExecResultW) : Json :=
  .obj [("columns", .arr (r.columns.map Json.str)),
        ("data", .arr (r.data.map (fun row => .arr (row.map cellToJson)))),
        ("rows_affected", .num (r.rows_affected : ℚ)),
        ("execution_time", .num r.execution_time),
        ("timestamp", .num (r.timestamp : ℚ))]

/-- Field access on a parsed JSON object (`result["columns"]` etc.). -/
def jsonField (j : Json) (key : String) : Option Json :=
  match j with
  | .obj fields => (fields.find? (fun f => f.1 == key)).map (fun f => f.2)
  | _ => none

/-- Element-wise parsing of a JSON array: succeeds when every element
parses. -/
def parseAll {α : Type} (g : Json → Option α) : List Json → Option (List α)
  | [] => some []
  | j :: js =>
      match g j, parseAll g js with
      | some a, some as => some (a :: as)
      | _, _ => none

/-- Parsing the `columns` field: a JSON array of strings. -/
def parseColumns : Json → Option (List String)
  | .arr xs => parseAll (fun j => match j with | .str s => some s | _ => none) xs
  | _ => none

/-- Parsing one row of `data`. -/
def parseRow : Json → Option (List Cell)
  | .arr xs => parseAll cellOfJson xs
  | _ => none

/-- Parsing the `data` field: a JSON array of rows. -/
def parseData : Json → Option (List (List Cell))
  | .arr rows => parseAll parseRow rows
  | _ => none

/-- Parsing the `rows_affected` field: an integral JSON number. -/
def parseRowsAffected : Json → Option Int
  | .num q => if q.den = 1 then some q.num else none
  | _ => none

/-- The client-side parse of a `POST /api/query` response body: the three
fields the round-trip claim is about. -/
def parseWire (j : Json) : Option (List String × List (List Cell) × Int) :=
  match jsonField j "columns" with
  | none => none
  | some jc =>
      match jsonField j "data" with
      | none => none
      | some jd =>
          match jsonField j "rows_affected" with
          | none => none
          | some jr =>
              match parseColumns jc, parseData jd, parseRowsAffected jr with
              | some cols, some rows, some ra => some (cols, rows, ra)
              | _, _, _ => none

/-! Helper lemmas shared by the claim theorems. -/

/-- Parsing a list produced by mapping a section of the parser succeeds and
returns the original list. -/
theorem parseAll_map_of_some {α : Type} (g : Json → Option α) (f : α → Json)
    (h : ∀ a, g (f a) = some a) : ∀ l : List α, parseAll g (l.map f) = some l := by
  intro l
  induction l with
  | nil => rfl
  | cons a l ih => simp [parseAll, h, ih]

/-- Every failure of `get_current_user` is the one `credentials_exception`. -/
theorem get_current_user_error_eq {key : String} {now : Nat} {t : JwtToken}
    {e : ApiError} (h : get_current_user key now t = .error e) :
    e = credentials_exception := by
  unfold get_current_user at h
  split at h
  · exact (Except.error.inj h).symm
  · split at h
    · exact (Except.error.inj h).symm
    · split at h
      · exact (Except.error.inj h).symm
      · simp at h

/-- The retry loop always returns a DataFrame when entered with attempts
left and enough fuel: either the empty failure placeholder or a DataFrame
the driver produced. -/
theorem runQueryLoop_ret_total (driver : Nat → AttemptOutcome) (maxRetries : Nat) :
    ∀ fuel retryCount attempts sleeps warns errs,
      retryCount < maxRetries → maxRetries < retryCount + fuel →
      (runQueryLoop driver maxRetries fuel retryCount attempts sleeps warns
          errs).ret = some DataFrame.empty ∨
        ∃ n df, driver n = .success df ∧
          (runQueryLoop driver maxRetries fuel retryCount attempts sleeps warns
            errs).ret = some df := by
  intro fuel
  induction fuel with
  | zero => intro rc a s w e h1 h2; omega
  | succ fuel ih =>
      intro rc a s w e h1 h2
      rw [runQueryLoop, if_pos h1]
      rcases hd : driver (a + 1) with _ | df | exc
      · left; rfl
      · right; exact ⟨a + 1, df, hd, rfl⟩
      · rcases exc with msg | msg | msg
        · dsimp only
          by_cases ht : isTimeoutSig msg = true
          · rw [if_pos ht]
            by_cases hlt : rc + 1 < maxRetries
            · rw [if_pos hlt]
              exact ih (rc + 1) (a + 1) _ _ _ hlt (by omega)
            · rw [if_neg hlt]; left; rfl
          · rw [if_neg ht]
            by_cases hlt : rc + 1 < maxRetries
            · rw [if_pos hlt]
              exact ih (rc + 1) (a + 1) _ _ _ hlt (by omega)
            · rw [if_neg hlt]; left; rfl
        · left; rfl
        · left; rfl

/-- Closed form of the retry loop on a driver whose every attempt raises an
operational error with a timeout signature: retries exhaust, the returned
value is the empty DataFrame, a single annotated error message is
surfaced, and `maxRetries - retryCount` further attempts are consumed. -/
theorem runQueryLoop_timeout_exhaust {msg : String}
    (h : isTimeoutSig msg = true) (maxRetries : Nat) :
    ∀ fuel retryCount attempts sleeps warns errs,
      retryCount < maxRetries → maxRetries < retryCount + fuel →
      (runQueryLoop (fun _ => .raiseExc (.opError msg)) maxRetries fuel
          retryCount attempts sleeps warns errs).ret = some DataFrame.empty ∧
      (runQueryLoop (fun _ => .raiseExc (.opError msg)) maxRetries fuel
          retryCount attempts sleeps warns errs).errors =
        errs ++ [timeoutExhaustMsg maxRetries] ∧
      (runQueryLoop (fun _ => .raiseExc (.opError msg)) maxRetries fuel
          retryCount attempts sleeps warns errs).attempts =
        attempts + (maxRetries - retryCount) := by
  intro fuel
  induction fuel with
  | zero => intro rc a s w e h1 h2; omega
  | succ fuel ih =>
      intro rc a s w e h1 h2
      rw [runQueryLoop, if_pos h1]
      dsimp only
      rw [if_pos h]
      by_cases hlt : rc + 1 < maxRetries
      · rw [if_pos hlt]
        obtain ⟨r1, r2, r3⟩ := ih (rc + 1) (a + 1) _ _ _ hlt (by omega)
        refine ⟨r1, r2, ?_⟩
        rw [r3]; omega
      · rw [if_neg hlt]
        refine ⟨rfl, rfl, ?_⟩
        show a + 1 = a + (maxRetries - rc)
        omega

/-- Closed form of the retry loop on a driver whose every attempt raises an
operational error without a timeout signature (the connection branch). -/
theorem runQueryLoop_conn_exhaust {msg : String}
    (h : isTimeoutSig msg = false) (maxRetries : Nat) :
    ∀ fuel retryCount attempts sleeps warns errs,
      retryCount < maxRetries → maxRetries < retryCount + fuel →
      (runQueryLoop (fun _ => .raiseExc (.opError msg)) maxRetries fuel
          retryCount attempts sleeps warns errs).ret = some DataFrame.empty ∧
      (runQueryLoop (fun _ => .raiseExc (.opError msg)) maxRetries fuel
          retryCount attempts sleeps warns errs).errors =
        errs ++ [connExhaustMsg maxRetries msg] ∧
      (runQueryLoop (fun _ => .raiseExc (.opError msg)) maxRetries fuel
          retryCount attempts sleeps warns errs).attempts =
        attempts + (maxRetries - retryCount) := by
  intro fuel
  induction fuel with
  | zero => intro rc a s w e h1 h2; omega
  | succ fuel ih =>
      intro rc a s w e h1 h2
      rw [runQueryLoop, if_pos h1]
      dsimp only
      rw [if_neg (by simp [h])]
      by_cases hlt : rc + 1 < maxRetries
      · rw [if_pos hlt]
        obtain ⟨r1, r2, r3⟩ := ih (rc + 1) (a + 1) _ _ _ hlt (by omega)
        refine ⟨r1, r2, ?_⟩
        rw [r3]; omega
      · rw [if_neg hlt]
        refine ⟨rfl, rfl, ?_⟩
        show a + 1 = a + (maxRetries - rc)
        omega

/-! Claim theorems. -/

/-- C1, counterexample.  The claim says a pipeline call that ends in an
error stores nothing in the cache and the next call with the same key
re-attempts the full pipeline.  On the code this is false: `st.cache_data`
memoizes whatever `run_query` returns, and on a syntax error `run_query`
returns `pd.DataFrame()`.  Concretely: after one call whose only attempt
raises a `ProgrammingError`, the cache holds the empty placeholder for the
key, and a second call 10 seconds later — against a now perfectly healthy
driver — is served the cached empty DataFrame without executing anything. -/
theorem cache_stores_error_placeholder_cex :
    (runQueryCached (fun _ => .raiseExc (.progError "Invalid object name"))
        "SELECT 1" 0 []).cache =
      [("SELECT 1", some DataFrame.empty, 0)] ∧
    runQueryCached (fun _ => .success ⟨["x"], [[.num 7]]⟩) "SELECT 1" 10
        ((runQueryCached (fun _ => .raiseExc (.progError "Invalid object name"))
          "SELECT 1" 0 []).cache) =
      ⟨some DataFrame.empty, [("SELECT 1", some DataFrame.empty, 0)], false⟩ := by
  decide

/-- C1, amended.  A pipeline call that ends in a non-retryable error
returns the empty DataFrame, and that empty placeholder IS stored in the
cache; any call with the same key within the TTL window is served the
cached empty placeholder and does not re-attempt the pipeline. -/
theorem cache_stores_error_placeholder (msg q : String) (t1 t2 : Nat)
    (c0 : QueryCache) (d2 : Nat → AttemptOutcome)
    (h0 : cacheLookup c0 q t1 600 = none) (h1 : t1 ≤ t2) (h2 : t2 - t1 < 600) :
    (runQueryCached (fun _ => .raiseExc (.progError msg)) q t1 c0).ret =
      some DataFrame.empty ∧
    (runQueryCached (fun _ => .raiseExc (.progError msg)) q t1 c0).executed =
      true ∧
    runQueryCached d2 q t2
        ((runQueryCached (fun _ => .raiseExc (.progError msg)) q t1 c0).cache) =
      ⟨some DataFrame.empty,
        (runQueryCached (fun _ => .raiseExc (.progError msg)) q t1 c0).cache,
        false⟩ := by
  have hrun : (run_query (fun _ => .raiseExc (.progError msg))).ret =
      some DataFrame.empty := rfl
  have hfirst : runQueryCached (fun _ => .raiseExc (.progError msg)) q t1 c0 =
      ⟨some DataFrame.empty, (q, some DataFrame.empty, t1) :: c0, true⟩ := by
    unfold runQueryCached
    rw [h0]
    dsimp only
    rw [hrun]
  have hlk : cacheLookup ((q, some DataFrame.empty, t1) :: c0) q t2 600 =
      some (some DataFrame.empty) := by
    unfold cacheLookup
    rw [List.find?_cons_of_pos _ (by simp)]
    dsimp only
    rw [if_pos h2]
  refine ⟨by rw [hfirst], by rw [hfirst], ?_⟩
  rw [hfirst]
  show runQueryCached d2 q t2 ((q, some DataFrame.empty, t1) :: c0) = _
  unfold runQueryCached
  rw [hlk]

/-- Witness for the C1 amended theorem at concrete inputs. -/
theorem cache_stores_error_placeholder_witness :
    cacheLookup [] "SELECT 1" 0 600 = none ∧ (0 : Nat) ≤ 10 ∧ 10 - 0 < 600 ∧
    ((runQueryCached (fun _ => .raiseExc (.progError "Invalid object name"))
        "SELECT 1" 0 []).ret = some DataFrame.empty ∧
      (runQueryCached (fun _ => .raiseExc (.progError "Invalid object name"))
        "SELECT 1" 0 []).executed = true ∧
      runQueryCached (fun _ => .success ⟨["x"], [[.num 7]]⟩) "SELECT 1" 10
          ((runQueryCached (fun _ => .raiseExc (.progError "Invalid object name"))
            "SELECT 1" 0 []).cache) =
        ⟨some DataFrame.empty,
          (runQueryCached (fun _ => .raiseExc (.progError "Invalid object name"))
            "SELECT 1" 0 []).cache, false⟩) :=
  ⟨rfl, by decide, by decide,
    cache_stores_error_placeholder "Invalid object name" "SELECT 1" 0 10 []
      (fun _ => .success ⟨["x"], [[.num 7]]⟩) rfl (by decide) (by decide)⟩

/-- C2, counterexample.  The claim says every failing `execute_query` call
produces a ClassifiedError whose kind (Timeout/Auth/Syntax/Connection/
Unknown) is chosen at this boundary by matching the driver failure.  On
the code this is false: `execute_query` catches every exception uniformly
and raises `HTTPException(500, "Database error: " + str(e))` — a
timeout-signature failure and a login failure, which the spec
classification maps to the distinct kinds Timeout and Auth, produce errors
of the identical shape (same status 500, no kind field), differing only in
the raw message text. -/
theorem executor_no_classification_cex :
    execute_query (.raiseExc "('HYT00', 'Query timeout expired')") 1 0 =
      .error ⟨500, "Database error: ('HYT00', 'Query timeout expired')"⟩ ∧
    execute_query (.raiseExc "('28000', 'Login failed for user')") 1 0 =
      .error ⟨500, "Database error: ('28000', 'Login failed for user')"⟩ ∧
    specClassifyFailure "('HYT00', 'Query timeout expired')" = .timeout ∧
    specClassifyFailure "('28000', 'Login failed for user')" = .auth ∧
    (⟨500, "Database error: ('HYT00', 'Query timeout expired')"⟩ : ApiError).statusCode =
      (⟨500, "Database error: ('28000', 'Login failed for user')"⟩ : ApiError).statusCode := by
  decide

/-- C2, amended.  Every failing call of `execute_query` raises one uniform
`HTTPException` with status 500 and detail `"Database error: "` followed
by the driver message — the error is surfaced, never silently swallowed,
but no classification into the five kinds happens at this boundary. -/
theorem executor_uniform_error (msg : String) (elapsed : ℚ) (now : Nat) :
    execute_query (.raiseExc msg) elapsed now =
      .error ⟨500, "Database error: " ++ msg⟩ := rfl

/-- C3, confirmed.  The retry policy of the retry loop: an attempt failing
with a timeout- or connection-signature `OperationalError` is retried
while attempts remain; an attempt failing with a `ProgrammingError`
(syntax) or any other exception class (for example `InterfaceError`, the
pyodbc exception for database-level login failure) terminates immediately
after one attempt with zero retries, surfacing the error.  In particular a
driver that fails with a connection-class error twice and then succeeds,
run with a cap of 3 attempts, returns the success after exactly 2 retries
(two sleeps, three attempts) — and the same holds under the hardcoded
source cap of 5. -/
theorem retry_policy_by_classification (df : DataFrame) (msgS msgA : String) :
    runQueryRetry 3
        (fun n => if n ≤ 2 then
          .raiseExc (.opError "could not open a connection to the server")
          else .success df) =
      ⟨some df, 3, [1, 1], [.connRetry 1 3, .connRetry 2 3], []⟩ ∧
    runQueryRetry 5
        (fun n => if n ≤ 2 then
          .raiseExc (.opError "could not open a connection to the server")
          else .success df) =
      ⟨some df, 3, [1, 1], [.connRetry 1 5, .connRetry 2 5], []⟩ ∧
    runQueryRetry 3
        (fun n => if n ≤ 1 then .raiseExc (.opError "HYT00 timeout expired")
          else .success df) =
      ⟨some df, 2, [(3 / 2 : ℚ) ^ 1],
        [.timeoutRetry 1 3 ((3 / 2 : ℚ) ^ 1)], []⟩ ∧
    runQueryRetry 3 (fun _ => .raiseExc (.progError msgS)) =
      ⟨some DataFrame.empty, 1, [], [], ["SQL Error: " ++ msgS]⟩ ∧
    runQueryRetry 3 (fun _ => .raiseExc (.otherError msgA)) =
      ⟨some DataFrame.empty, 1, [], [], ["Query Error: " ++ msgA]⟩ :=
  ⟨rfl, rfl, rfl, rfl, rfl⟩

/-- C4, confirmed.  For every request whose bearer token fails validation
(invalid signature, malformed structure, expired, missing or unknown
subject), the `POST /api/query` endpoint returns the 401 Unauthorized
error immediately and `execute_query` is never reached — the server holds
no cache, so no cache lookup and no database execution happens for the
request. -/
theorem unauthorized_blocks_execution (key : String) (now : Nat)
    (t : JwtToken) (outcome : CursorOutcome) (elapsed : ℚ)
    (h : ∃ e, get_current_user key now t = .error e) :
    run_sql_query key now t outcome elapsed =
      (.error credentials_exception, false) := by
  obtain ⟨e, he⟩ := h
  have hce : e = credentials_exception := get_current_user_error_eq he
  unfold run_sql_query get_current_active_user
  rw [he, hce]

/-- Witness for C4 at a concrete expired token. -/
theorem unauthorized_blocks_execution_witness :
    (∃ e, get_current_user "k" 100 (.signed "k" ⟨some "admin", 50⟩) =
      .error e) ∧
    run_sql_query "k" 100 (.signed "k" ⟨some "admin", 50⟩)
        (.resultSet ["a"] [[.num 1]]) 1 =
      (.error credentials_exception, false) :=
  ⟨⟨credentials_exception, by decide⟩,
    unauthorized_blocks_execution "k" 100 (.signed "k" ⟨some "admin", 50⟩)
      (.resultSet ["a"] [[.num 1]]) 1 ⟨credentials_exception, by decide⟩⟩

/-- C5, counterexample.  The claim says that when every attempt fails with
a retryable error, `runWithRetry` returns the last classified error — a
structured error, not a success value and not an empty result.  On the
code this is false: after 5 timeout-signature failures `run_query` returns
`some pd.DataFrame()` — exactly an empty result — and the error exists
only as a UI message. -/
theorem exhaustion_returns_empty_cex :
    (run_query (fun _ => .raiseExc (.opError "HYT00 timeout expired"))).ret =
      some DataFrame.empty ∧
    (run_query (fun _ => .raiseExc (.opError "HYT00 timeout expired"))).errors =
      ["Query timed out after 5 attempts. Try simplifying your query."] := by
  decide

/-- C5, amended.  For every operation failing with a retryable
(operational) error on all of its 5 attempts, `run_query` surfaces a
single `st.error` message annotated with the attempt count — the timeout
wording for timeout-signature failures, the generic wording plus the
driver message otherwise — and returns the empty DataFrame, not a
structured error value. -/
theorem exhaustion_surfaces_message_returns_empty (msgT msgC : String)
    (hT : isTimeoutSig msgT = true) (hC : isTimeoutSig msgC = false) :
    ((run_query (fun _ => .raiseExc (.opError msgT))).ret =
        some DataFrame.empty ∧
      (run_query (fun _ => .raiseExc (.opError msgT))).errors =
        ["Query timed out after 5 attempts. Try simplifying your query."] ∧
      (run_query (fun _ => .raiseExc (.opError msgT))).attempts = 5) ∧
    ((run_query (fun _ => .raiseExc (.opError msgC))).ret =
        some DataFrame.empty ∧
      (run_query (fun _ => .raiseExc (.opError msgC))).errors =
        ["Failed to execute query after 5 attempts: " ++ msgC] ∧
      (run_query (fun _ => .raiseExc (.opError msgC))).attempts = 5) := by
  have h1 := runQueryLoop_timeout_exhaust hT 5 6 0 0 [] [] []
    (by omega) (by omega)
  have h2 := runQueryLoop_conn_exhaust hC 5 6 0 0 [] [] []
    (by omega) (by omega)
  obtain ⟨a1, a2, a3⟩ := h1
  obtain ⟨b1, b2, b3⟩ := h2
  exact ⟨⟨a1, a2, a3⟩, ⟨b1, b2, b3⟩⟩

/-- Witness for the C5 amended theorem at concrete messages. -/
theorem exhaustion_surfaces_message_returns_empty_witness :
    isTimeoutSig "HYT00 timeout expired" = true ∧
    isTimeoutSig "connection is broken" = false ∧
    (((run_query (fun _ => .raiseExc (.opError "HYT00 timeout expired"))).ret =
        some DataFrame.empty ∧
      (run_query (fun _ => .raiseExc (.opError "HYT00 timeout expired"))).errors =
        ["Query timed out after 5 attempts. Try simplifying your query."] ∧
      (run_query (fun _ => .raiseExc (.opError "HYT00 timeout expired"))).attempts = 5) ∧
    ((run_query (fun _ => .raiseExc (.opError "connection is broken"))).ret =
        some DataFrame.empty ∧
      (run_query (fun _ => .raiseExc (.opError "connection is broken"))).errors =
        ["Failed to execute query after 5 attempts: " ++ "connection is broken"] ∧
      (run_query (fun _ => .raiseExc (.opError "connection is broken"))).attempts = 5)) :=
  ⟨by decide, by decide,
    exhaustion_surfaces_message_returns_empty "HYT00 timeout expired"
      "connection is broken" (by decide) (by decide)⟩

/-- C6, counterexample.  The claim says that after a retryable failure at
attempt n the coordinator waits exactly backoffPolicy(n) — exponential
with a configurable base (2.0 or 1.5 in observed variants) — uniformly for
Timeout- and Connection-classified errors.  On the code this is false: a
connection-class failure at attempt 1 is followed by a fixed 1-second
sleep, which differs from the exponential wait 1.5^1 used by the timeout
branch (and from 2.0^1). -/
theorem backoff_not_uniform_cex :
    (run_query (fun n => if n ≤ 1 then
        .raiseExc (.opError "could not open a connection")
        else .success DataFrame.empty)).sleeps = [(1 : ℚ)] ∧
    (run_query (fun n => if n ≤ 1 then .raiseExc (.opError "HYT00")
        else .success DataFrame.empty)).sleeps = [(3 / 2 : ℚ) ^ 1] ∧
    (1 : ℚ) ≠ (3 / 2 : ℚ) ^ 1 ∧ (1 : ℚ) ≠ (2 : ℚ) ^ 1 :=
  ⟨rfl, rfl, by norm_num, by norm_num⟩

/-- C6, amended.  After a retryable failure at attempt n with attempts
remaining, the wait depends on the branch: a timeout-signature failure is
followed by a wait of backoff_factor^n with backoff_factor = 1.5, while a
connection-class (other operational) failure is followed by a fixed wait
of 1 second — the exponential rule is not uniform across the two
retryable error classes. -/
theorem backoff_timeout_exponential_conn_fixed (df : DataFrame) :
    (runQueryRetry 5 (fun n => if n ≤ 2 then
        .raiseExc (.opError "HYT00 timeout expired")
        else .success df)).sleeps = [(3 / 2 : ℚ) ^ 1, (3 / 2 : ℚ) ^ 2] ∧
    (runQueryRetry 5 (fun n => if n ≤ 2 then
        .raiseExc (.opError "could not open a connection")
        else .success df)).sleeps = [(1 : ℚ), (1 : ℚ)] :=
  ⟨rfl, rfl⟩

/-- C7, confirmed.  Cache fidelity of the `st.cache_data(ttl=600)` layer:
when a first call at time t1 misses the cache, a second call with the same
query within the TTL window (t2 - t1 < 600 seconds) returns the identical
payload served from the cache without running the pipeline, and a call
after the TTL has expired (t3 - t1 >= 600) runs a fresh execution. -/
theorem cache_fidelity_and_expiry (d1 d2 d3 : Nat → AttemptOutcome)
    (q : String) (t1 t2 t3 : Nat) (c0 : QueryCache)
    (h0 : cacheLookup c0 q t1 600 = none) (h1 : t1 ≤ t2)
    (h2 : t2 - t1 < 600) (h3 : 600 ≤ t3 - t1) :
    (runQueryCached d1 q t1 c0).executed = true ∧
    runQueryCached d2 q t2 ((runQueryCached d1 q t1 c0).cache) =
      ⟨(runQueryCached d1 q t1 c0).ret, (runQueryCached d1 q t1 c0).cache,
        false⟩ ∧
    (runQueryCached d3 q t3 ((runQueryCached d1 q t1 c0).cache)).executed =
      true := by
  have hfirst : runQueryCached d1 q t1 c0 =
      ⟨(run_query d1).ret, (q, (run_query d1).ret, t1) :: c0, true⟩ := by
    unfold runQueryCached
    rw [h0]
  have hlk2 : cacheLookup ((q, (run_query d1).ret, t1) :: c0) q t2 600 =
      some ((run_query d1).ret) := by
    unfold cacheLookup
    rw [List.find?_cons_of_pos _ (by simp)]
    dsimp only
    rw [if_pos h2]
  have hlk3 : cacheLookup ((q, (run_query d1).ret, t1) :: c0) q t3 600 =
      none := by
    unfold cacheLookup
    rw [List.find?_cons_of_pos _ (by simp)]
    dsimp only
    rw [if_neg (by omega)]
  refine ⟨by rw [hfirst], ?_, ?_⟩
  · rw [hfirst]
    show runQueryCached d2 q t2 ((q, (run_query d1).ret, t1) :: c0) = _
    unfold runQueryCached
    rw [hlk2]
  · rw [hfirst]
    show (runQueryCached d3 q t3 ((q, (run_query d1).ret, t1) :: c0)).executed =
      true
    unfold runQueryCached
    rw [hlk3]

/-- Witness for C7 at concrete inputs. -/
theorem cache_fidelity_and_expiry_witness :
    cacheLookup [] "SELECT 1" 0 600 = none ∧ (0 : Nat) ≤ 10 ∧ 10 - 0 < 600 ∧
    600 ≤ 600 - 0 ∧
    ((runQueryCached (fun _ => .success ⟨["x"], [[.num 7]]⟩) "SELECT 1" 0
        []).executed = true ∧
      runQueryCached (fun _ => .success ⟨["x"], [[.num 7]]⟩) "SELECT 1" 10
          ((runQueryCached (fun _ => .success ⟨["x"], [[.num 7]]⟩) "SELECT 1" 0
            []).cache) =
        ⟨(runQueryCached (fun _ => .success ⟨["x"], [[.num 7]]⟩) "SELECT 1" 0
            []).ret,
          (runQueryCached (fun _ => .success ⟨["x"], [[.num 7]]⟩) "SELECT 1" 0
            []).cache, false⟩ ∧
      (runQueryCached (fun _ => .success ⟨["x"], [[.num 7]]⟩) "SELECT 1" 600
          ((runQueryCached (fun _ => .success ⟨["x"], [[.num 7]]⟩) "SELECT 1" 0
            []).cache)).executed = true) :=
  ⟨rfl, by decide, by decide, by decide,
    cache_fidelity_and_expiry (fun _ => .success ⟨["x"], [[.num 7]]⟩)
      (fun _ => .success ⟨["x"], [[.num 7]]⟩)
      (fun _ => .success ⟨["x"], [[.num 7]]⟩) "SELECT 1" 0 10 600 [] rfl
      (by decide) (by decide) (by decide)⟩

/-- C8, counterexample.  The claim says expired tokens fail with
AuthError(Expired) and malformed tokens with the distinct
AuthError(Malformed), the two being distinguishable to the caller.  On the
code this is false: `get_current_user` catches every `JWTError` —
`ExpiredSignatureError` included — and raises the one
`credentials_exception`, so an expired token and a garbage token produce
literally identical 401 errors. -/
theorem token_failures_indistinguishable_cex :
    get_current_user "k" 100
        (create_access_token "k" (some "admin") 0 (some 10)) =
      .error credentials_exception ∧
    get_current_user "k" 100 (.malformed "garbage") =
      .error credentials_exception ∧
    get_current_user "k" 100
        (create_access_token "k" (some "admin") 0 (some 10)) =
      get_current_user "k" 100 (.malformed "garbage") := by
  decide

/-- C8, amended.  Token verification succeeds and returns the subject for
every issued token whose lifetime has not elapsed; past
`issuedAt + lifetime` it fails, and a malformed token also fails — but
both failures are the same `credentials_exception` (401, "Could not
validate credentials"): the two failure kinds are not distinguishable to
the caller. -/
theorem verify_token_behavior (key : String) (now delta nowValid nowLate : Nat)
    (raw : String) (hv : nowValid ≤ now + delta) (hl : now + delta < nowLate) :
    get_current_user key nowValid
        (create_access_token key (some "admin") now (some delta)) =
      .ok ⟨"admin", false⟩ ∧
    get_current_user key nowLate
        (create_access_token key (some "admin") now (some delta)) =
      .error credentials_exception ∧
    get_current_user key nowValid (.malformed raw) =
      .error credentials_exception ∧
    get_current_user key nowLate
        (create_access_token key (some "admin") now (some delta)) =
      get_current_user key nowValid (.malformed raw) := by
  have hok : jwtDecode key nowValid (.signed key ⟨some "admin", now + delta⟩) =
      .ok ⟨some "admin", now + delta⟩ := by
    unfold jwtDecode
    dsimp only
    rw [if_pos rfl, if_neg (by omega)]
  have hexp : jwtDecode key nowLate (.signed key ⟨some "admin", now + delta⟩) =
      .error .expired := by
    unfold jwtDecode
    dsimp only
    rw [if_pos rfl, if_pos (by omega)]
  have p1 : get_current_user key nowValid
      (create_access_token key (some "admin") now (some delta)) =
        .ok ⟨"admin", false⟩ := by
    show get_current_user key nowValid
      (.signed key ⟨some "admin", now + delta⟩) = _
    unfold get_current_user
    rw [hok]
    rfl
  have p2 : get_current_user key nowLate
      (create_access_token key (some "admin") now (some delta)) =
        .error credentials_exception := by
    show get_current_user key nowLate
      (.signed key ⟨some "admin", now + delta⟩) = _
    unfold get_current_user
    rw [hexp]
  have p3 : get_current_user key nowValid (.malformed raw) =
      .error credentials_exception := rfl
  exact ⟨p1, p2, p3, p2.trans p3.symm⟩

/-- Witness for the C8 amended theorem at concrete inputs. -/
theorem verify_token_behavior_witness :
    (300 : Nat) ≤ 0 + 600 ∧ 0 + 600 < 601 ∧
    (get_current_user "k" 300
        (create_access_token "k" (some "admin") 0 (some 600)) =
      .ok ⟨"admin", false⟩ ∧
    get_current_user "k" 601
        (create_access_token "k" (some "admin") 0 (some 600)) =
      .error credentials_exception ∧
    get_current_user "k" 300 (.malformed "garbage") =
      .error credentials_exception ∧
    get_current_user "k" 601
        (create_access_token "k" (some "admin") 0 (some 600)) =
      get_current_user "k" 300 (.malformed "garbage")) :=
  ⟨by decide, by decide,
    verify_token_behavior "k" 0 600 300 601 "garbage" (by decide) (by decide)⟩

/-- C9, confirmed.  Serializing any `QueryResult` to the JSON wire body of
`POST /api/query` and parsing it back on the client yields exactly the
original columns, rows and rows_affected — the universal quantifier covers
in particular every successful result set with zero rows. -/
theorem wire_roundtrip (r : ExecResultW) :
    parseWire (serializeQueryResult r) =
      some (r.columns, r.data, r.rows_affected) := by
  have hc : parseColumns (.arr (r.columns.map Json.str)) = some r.columns :=
    parseAll_map_of_some _ Json.str (fun _ => rfl) r.columns
  have hrow : ∀ row : List Cell,
      parseRow (.arr (row.map cellToJson)) = some row := fun row =>
    parseAll_map_of_some cellOfJson cellToJson (fun c => by cases c <;> rfl) row
  have hd : parseData
      (.arr (r.data.map (fun row => Json.arr (row.map cellToJson)))) =
        some r.data := by
    show parseAll parseRow
      (r.data.map (fun row => Json.arr (row.map cellToJson))) = some r.data
    exact parseAll_map_of_some parseRow
      (fun row => Json.arr (row.map cellToJson)) hrow r.data
  have hr : parseRowsAffected (.num (r.rows_affected : ℚ)) =
      some r.rows_affected := by
    unfold parseRowsAffected
    dsimp only
    rw [if_pos (Rat.den_intCast r.rows_affected), Rat.num_intCast]
  have h1 : jsonField (serializeQueryResult r) "columns" =
      some (.arr (r.columns.map Json.str)) := rfl
  have h2 : jsonField (serializeQueryResult r) "data" =
      some (.arr (r.data.map (fun row => Json.arr (row.map cellToJson)))) := rfl
  have h3 : jsonField (serializeQueryResult r) "rows_affected" =
      some (.num (r.rows_affected : ℚ)) := rfl
  unfold parseWire
  rw [h1, h2, h3]
  dsimp only
  rw [hc, hd, hr]

/-- C10, confirmed.  The shell-side `run_query` is total at its public
interface: for every driver behavior it returns a DataFrame — either the
empty `pd.DataFrame()` on a failure path or a DataFrame the driver
produced — and never propagates an exception; moreover a failed execution
returns the very value a successful zero-row, zero-column query returns,
so the two are indistinguishable at this interface. -/
theorem shell_total_empty_on_failure :
    (∀ driver : Nat → AttemptOutcome,
      (run_query driver).ret = some DataFrame.empty ∨
        ∃ n df, driver n = .success df ∧ (run_query driver).ret = some df) ∧
    (run_query (fun _ => .raiseExc (.progError "Invalid object name"))).ret =
      (run_query (fun _ => .success DataFrame.empty)).ret := by
  constructor
  · intro driver
    exact runQueryLoop_ret_total driver 5 6 0 0 [] [] [] (by omega) (by omega)
  · decide
